import Mathlib

/-!
Verification development for the octagon abstract-domain core
(`abstract_domains/numerical/octagon.py`).

The octagon module itself is translated directly from the source.  Its
dependencies `abstract_domains/numerical/dbm.py` (`IntegerCDBM`),
`abstract_domains/numerical/interval.py` (`IntervalLattice`),
`abstract_domains/lattice.py` and `core/expressions.py` are not part of the
source tree available here; where the octagon code calls into them they are
modelled from the specification (each such definition carries a doc comment
starting `Modelled from the spec:`).
-/

/-- Extended numeric value: a rational, `+inf`, or `-inf`.  Python's numeric
tower (ints, floats and the two infinities) is modelled as
`WithBot (WithTop Rat)`, whose `⊥`/`⊤` are `-inf`/`+inf` and whose addition
and linear order agree with Python's on these values. -/
abbrev EInt := WithBot (WithTop ℚ)

/-- Positive infinity, `math.inf`. -/
def pInf : EInt := ⊤

/-- Negative infinity, `-math.inf`. -/
def nInf : EInt := ⊥

/-- Embedding of a finite rational number. -/
def qfin (q : ℚ) : EInt := ((q : WithTop ℚ) : EInt)

/-- Division of an extended value by 2 (Python's `x / 2`; infinities are
preserved, finite values are halved exactly). -/
def ehalf (e : EInt) : EInt := WithBot.map (WithTop.map (· / 2)) e

/-- Negation of an extended value (`-x` in Python, swapping the infinities). -/
def eneg : EInt → EInt
  | none => pInf
  | some none => nInf
  | some (some q) => qfin (-q)

/-- Unary arithmetic operator sign, `UnaryArithmeticOperation.Operator`.
Modelled from the spec: `core/expressions.py` is not under src/; the spec
describes the sign as "plus or minus" (§3) and the source multiplies signs
(`Sign(sign1 * MINUS)`), consistent with values `Add = 1`, `Sub = -1`. -/
inductive Sign where
  | add : Sign
  | sub : Sign
deriving DecidableEq, Repr

/-- Alias `PLUS = Sign.Add` from the source. -/
def PLUS : Sign := Sign.add

/-- Alias `MINUS = Sign.Sub` from the source. -/
def MINUS : Sign := Sign.sub

/-- Product of two signs, modelling `Sign(s1 * s2)` on values `1`/`-1`. -/
def signMul : Sign → Sign → Sign
  | Sign.add, s => s
  | Sign.sub, Sign.add => Sign.sub
  | Sign.sub, Sign.sub => Sign.add

/-- Translation of the body of the module-level `_index_shift(self, sign)`:
offset of a signed variable occurrence inside its index pair (`1` for the
negative occurrence, `0` for the positive one).  Note the source defines
this function with two required parameters but every call site passes a
single argument (`_index_shift(sign1)`), so in the program the calls
themselves raise `TypeError` before this body ever runs (see `getItem` and
`setItem`). -/
def indexShift (s : Sign) : Nat := if s = MINUS then 1 else 0

/-- Python exception classes raised by the code under study. -/
inductive PyErr where
  | valueError : PyErr
  | typeError : PyErr
  | keyError : PyErr
deriving DecidableEq, Repr

deriving instance DecidableEq for Except

/-- Static type of a program variable (only `int` matters to the octagon). -/
inductive PyType where
  | int : PyType
  | other : PyType
deriving DecidableEq, Repr

/-- Modelled from the spec: a program variable (`core.expressions.
VariableIdentifier`, not under src/), identified by its name and carrying
its declared type (§4.4 dispatches on `left.typ`). -/
structure VariableIdentifier where
  name : String
  typ : PyType
deriving DecidableEq, Repr

/-- Modelled from the spec: `IntegerCDBM` (`dbm.py`, not under src/), a
square matrix of size `2N` holding numeric bounds, §4.1.  Entries are a
total function; positions at or beyond `size` are never observed. -/
structure IntegerCDBM where
  size : Nat
  entries : Nat → Nat → EInt

/-- Modelled from the spec: DBM entry read, `get(i, j)` of §4.1. -/
def IntegerCDBM.get (d : IntegerCDBM) (i j : Nat) : EInt := d.entries i j

/-- Modelled from the spec: DBM entry write, `set(i, j, bound)` of §4.1. -/
def IntegerCDBM.set (d : IntegerCDBM) (i j : Nat) (v : EInt) : IntegerCDBM :=
  { d with entries := fun a b => if a = i ∧ b = j then v else d.entries a b }

/-- Modelled from the spec: `intersection(other)` is the entrywise minimum
(§4.1). -/
def IntegerCDBM.intersection (d other : IntegerCDBM) : IntegerCDBM :=
  { d with entries := fun i j => min (d.entries i j) (other.entries i j) }

/-- Modelled from the spec: `union(other)` is the entrywise maximum (§4.1). -/
def IntegerCDBM.union (d other : IntegerCDBM) : IntegerCDBM :=
  { d with entries := fun i j => max (d.entries i j) (other.entries i j) }

/-- Modelled from the spec: `zip(other, f)` applies a binary function
entrywise (§4.1); no size compatibility behaviour is specified, so the
model is total in the operands. -/
def IntegerCDBM.zipWith (d other : IntegerCDBM) (f : EInt → EInt → EInt) : IntegerCDBM :=
  { d with entries := fun i j => f (d.entries i j) (other.entries i j) }

/-- Index of the other occurrence of the variable owning index `i`
(the "flip" partner: `2k ↔ 2k+1`). -/
def dbmBar (i : Nat) : Nat := if i % 2 = 0 then i + 1 else i - 1

/-- Modelled from the spec: the Floyd-Warshall relaxation underlying
`close()` (§4.1), a triple loop taking the minimum of each bound and every
two-step path through an intermediate node. -/
def fwPass (s : Nat) (e : Nat → Nat → EInt) : Nat → Nat → EInt :=
  (List.range s).foldl (fun acc k => fun i j => min (acc i j) (acc i k + acc k j)) e

/-- Modelled from the spec: the octagon-specific coherence step of
`close()` (§4.1), tightening each bound using the flip relationship between
a variable's positive and negative indices. -/
def coherencePass (e : Nat → Nat → EInt) : Nat → Nat → EInt :=
  fun i j => min (e i j) (ehalf (e i (dbmBar i) + e (dbmBar j) j))

/-- Modelled from the spec: `close()` of §4.1, the all-pairs-shortest-paths
relaxation followed by the coherence step.  The infeasibility signal
(negative cycle) is not modelled: no claim under study exercises an
infeasible octagon. -/
def IntegerCDBM.close (d : IntegerCDBM) : IntegerCDBM :=
  { d with entries := coherencePass (fwPass d.size d.entries) }

/-- An octagon lattice element: the tracked variable list and the owned DBM
(`OctagonLattice.__init__` stores `_variables_list` and a fresh
`IntegerCDBM(len(variables) * 2)`). -/
structure OctagonLattice where
  variables_list : List VariableIdentifier
  dbm : IntegerCDBM

/-- Position of a variable in the tracked list, scaled by 2, mirroring the
`_var_to_index` dictionary built by `__init__` (the dictionary is built by
successive assignment, so a duplicated variable keeps its last index). -/
def varIndexAux : List VariableIdentifier → VariableIdentifier → Nat → Option Nat
  | [], _, _ => none
  | x :: xs, v, k =>
    match varIndexAux xs v (k + 2) with
    | some r => some r
    | none => if x = v then some k else none

namespace OctagonLattice

/-- Lookup in the `_var_to_index` dictionary: `none` models a `KeyError`. -/
def varToIndex (o : OctagonLattice) (v : VariableIdentifier) : Option Nat :=
  varIndexAux o.variables_list v 0

/-- Construction `OctagonLattice(variables)`: the DBM has size
`len(variables) * 2`.  Modelled from the spec: the fresh DBM's contents are
unspecified (§3 fixes them only after `top()`); the model starts
unconstrained, with every entry `+inf`. -/
def ofVars (vars : List VariableIdentifier) : OctagonLattice :=
  { variables_list := vars
    dbm := { size := vars.length * 2, entries := fun _ _ => pInf } }

/-- Index forms accepted by `__getitem__` / `__setitem__`: a 2-tuple
`(var, sign)` or a 4-tuple `(var1, sign1, var2, sign2)`. -/
inductive OctIndex where
  | pair (v : VariableIdentifier) (s : Sign) : OctIndex
  | quad (v1 : VariableIdentifier) (s1 : Sign) (v2 : VariableIdentifier) (s2 : Sign) : OctIndex

/-- Translation of `OctagonLattice.__getitem__`.  The 4-tuple branch
computes its dictionary keys as `var1 + _index_shift(sign1)`, calling the
module-level `_index_shift(self, sign)` with a single argument: Python
raises `TypeError` for the missing `sign` argument before any dictionary
lookup or DBM read, so the branch never returns a value.  Any other index
length falls into the `else` branch raising
`ValueError("Index into octagon has invalid format.")`. -/
def getItem (_o : OctagonLattice) (idx : OctIndex) : Except PyErr EInt :=
  match idx with
  | OctIndex.quad _ _ _ _ => Except.error PyErr.typeError
  | OctIndex.pair _ _ => Except.error PyErr.valueError

/-- Translation of `OctagonLattice.__setitem__`.  The 4-tuple branch calls
`_index_shift(sign1)` with one argument where the module-level
`_index_shift(self, sign)` requires two, so `TypeError` is raised before
the off-diagonal write (and the later `len(index) == 2` else-clause
`ValueError` is unreachable on 4-tuples).  The 2-tuple branch computes the
dictionary key `var + sign`; `VariableIdentifier` addition lives in the
absent `core/expressions.py` and no spec section defines it, and Python's
default for an unsupported operand is `TypeError`, which the model adopts.
Whatever the absent semantics, `_var_to_index` holds only even indices
(see `varIndexAux_even`), so this lookup could never produce the intended
odd negative index `2k+1`.  In every case the state is returned unmutated
alongside the exception. -/
def setItem (o : OctagonLattice) (idx : OctIndex) (_value : EInt) :
    OctagonLattice × Option PyErr :=
  match idx with
  | OctIndex.quad _ _ _ _ => (o, some PyErr.typeError)
  | OctIndex.pair _ _ => (o, some PyErr.typeError)

/-- Translation of `top()`: every key of the DBM is set to `+inf`
(`keys()` is modelled from the spec as enumerating all positions, §4.1). -/
def top (o : OctagonLattice) : OctagonLattice :=
  { o with dbm := { o.dbm with entries := fun _ _ => pInf } }

/-- Translation of `is_top()`.  The source filters the items with
`b[0] != b[1]` where `b` is the numeric bound of the item (`k` holds the
key): subscripting a number raises `TypeError` as soon as one item exists,
so the comprehension only completes (vacuously, as `all([])`) on a
zero-sized DBM. -/
def is_top (o : OctagonLattice) : Except PyErr Bool :=
  if o.dbm.size = 0 then Except.ok true else Except.error PyErr.typeError

/-- Translation of `_less_equal`: a size mismatch raises `ValueError`;
otherwise every bound of `self` is compared with the corresponding bound of
`other` (`values()` is modelled from the spec as enumerating all positions
in a fixed order, §4.1, so the zipped comparison is the pointwise one). -/
def less_equal (o other : OctagonLattice) : Except PyErr Bool :=
  if o.dbm.size ≠ other.dbm.size then Except.error PyErr.valueError
  else Except.ok (decide (∀ i ∈ List.range o.dbm.size, ∀ j ∈ List.range o.dbm.size,
    o.dbm.entries i j ≤ other.dbm.entries i j))

/-- Translation of `_meet`: a size mismatch raises `ValueError`; otherwise
the DBMs are intersected entrywise. -/
def meet (o other : OctagonLattice) : Except PyErr OctagonLattice :=
  if o.dbm.size ≠ other.dbm.size then Except.error PyErr.valueError
  else Except.ok { o with dbm := o.dbm.intersection other.dbm }

/-- Translation of `_join`: a size mismatch raises `ValueError`; otherwise
both DBMs are closed and then united entrywise. -/
def join (o other : OctagonLattice) : Except PyErr OctagonLattice :=
  if o.dbm.size ≠ other.dbm.size then Except.error PyErr.valueError
  else Except.ok { o with dbm := o.dbm.close.union other.dbm.close }

/-- Entrywise widening rule `lambda a, b: a if a >= b else inf`. -/
def widenFun (a b : EInt) : EInt := if b ≤ a then a else pInf

/-- The state produced by `_widening`: the entrywise zip of the two DBMs
with `widenFun`.  Note the source performs no size check here. -/
def wideningStep (o other : OctagonLattice) : OctagonLattice :=
  { o with dbm := o.dbm.zipWith other.dbm widenFun }

/-- Translation of `_widening`: unlike the other binary operations it
performs no dimension check and cannot raise. -/
def widening (o other : OctagonLattice) : Except PyErr OctagonLattice :=
  Except.ok (o.wideningStep other)

/-- Translation of `forget(var)`: close the DBM, then assign `+inf` through
the 2-tuple `__setitem__` at the variable's positive and then negative
occurrence.  Both 2-tuple assignments abort in the dictionary-key
computation (see `setItem`), so only the closure survives and the
exception propagates. -/
def forget (o : OctagonLattice) (v : VariableIdentifier) :
    OctagonLattice × Option PyErr :=
  match ({ o with dbm := o.dbm.close } : OctagonLattice).setItem (OctIndex.pair v PLUS) pInf with
  | (o2, some e) => (o2, some e)
  | (o2, none) => o2.setItem (OctIndex.pair v MINUS) pInf

/-- Translation of `set_lb(var, constant)`: a 4-tuple write of
`2 * constant` at `(var, MINUS, var, PLUS)`, which aborts with `TypeError`
inside `__setitem__` (see `setItem`). -/
def set_lb (o : OctagonLattice) (v : VariableIdentifier) (c : ℚ) :
    OctagonLattice × Option PyErr :=
  o.setItem (OctIndex.quad v MINUS v PLUS) (qfin (2 * c))

/-- Translation of `get_lb(var)`: read the 4-tuple `(var, PLUS, var, MINUS)`
and divide by 2; the read aborts with `TypeError` inside `__getitem__`
(see `getItem`). -/
def get_lb (o : OctagonLattice) (v : VariableIdentifier) : Except PyErr EInt :=
  (o.getItem (OctIndex.quad v PLUS v MINUS)).map ehalf

/-- Translation of `set_ub(var, constant)`: a 4-tuple write of
`-2 * constant` at `(var, PLUS, var, MINUS)`, which aborts with
`TypeError` inside `__setitem__` (see `setItem`). -/
def set_ub (o : OctagonLattice) (v : VariableIdentifier) (c : ℚ) :
    OctagonLattice × Option PyErr :=
  o.setItem (OctIndex.quad v PLUS v MINUS) (qfin (-(2 * c)))

/-- Translation of `get_ub(var)`: read the 4-tuple `(var, MINUS, var, PLUS)`
and divide by 2; the read aborts with `TypeError` inside `__getitem__`
(see `getItem`). -/
def get_ub (o : OctagonLattice) (v : VariableIdentifier) : Except PyErr EInt :=
  (o.getItem (OctIndex.quad v MINUS v PLUS)).map ehalf

/-- Translation of `set_octagonal_constraint(sign1, var1, sign2, var2,
constant)`: a 4-tuple write at `(var1, Sign(sign1 * MINUS), var2, sign2)`,
which aborts with `TypeError` inside `__setitem__` (see `setItem`). -/
def set_octagonal_constraint (o : OctagonLattice) (s1 : Sign)
    (v1 : VariableIdentifier) (s2 : Sign) (v2 : VariableIdentifier) (c : ℚ) :
    OctagonLattice × Option PyErr :=
  o.setItem (OctIndex.quad v1 (signMul s1 MINUS) v2 s2) (qfin c)

end OctagonLattice

/-- Modelled from the spec: an interval lattice element (`interval.py`, not
under src/), a pair of extended bounds; §6 uses it as a black-box constant
interval. -/
structure IntervalLattice where
  lower : EInt
  upper : EInt
deriving DecidableEq, Repr

/-- Modelled from the spec: negating an interval (§6), swapping and
negating the endpoints. -/
def IntervalLattice.negate (i : IntervalLattice) : IntervalLattice :=
  { lower := eneg i.upper, upper := eneg i.lower }

/-- Modelled from the spec: the maximal (unbounded) interval returned by
`IntervalLattice().top()`. -/
def IntervalLattice.topI : IntervalLattice := { lower := nInf, upper := pInf }

/-- Binary arithmetic operator (`BinaryArithmeticOperation.Operator`).
Modelled from the spec: `core/expressions.py` is not under src/; the
octagon code distinguishes `Add`, `Sub` and rejects everything else. -/
inductive BinOp where
  | add : BinOp
  | sub : BinOp
  | mult : BinOp
deriving DecidableEq, Repr

/-- Modelled from the spec: the expression shapes the octagon code
dispatches on (`core/expressions.py` is not under src/).  A constant
(sub)expression is recorded directly by the endpoints of the interval the
interval domain evaluates it to; `unsupported` stands for any expression
kind without a dedicated `visit_` method. -/
inductive Expression where
  | literal (lower upper : ℚ) : Expression
  | variableIdentifier (v : VariableIdentifier) : Expression
  | input : Expression
  | unaryArithmeticOperation (op : Sign) (e : Expression) : Expression
  | binaryArithmeticOperation (left : Expression) (op : BinOp) (right : Expression) : Expression
  | unsupported : Expression
deriving DecidableEq, Repr

/-- Modelled from the spec: `IntervalLattice.evaluate_expression(expr) ->
interval | failure` (§6), the interval domain's constant evaluation.  A
literal yields its interval, an input the maximal interval (§4.3), unary
and binary arithmetic combine constant operands; a variable or unsupported
shape is a failure (`ValueError`). -/
def evaluateExpression : Expression → Except PyErr IntervalLattice
  | Expression.literal l u => Except.ok { lower := qfin l, upper := qfin u }
  | Expression.input => Except.ok IntervalLattice.topI
  | Expression.unaryArithmeticOperation op e => do
    let i ← evaluateExpression e
    Except.ok (if op = MINUS then i.negate else i)
  | Expression.binaryArithmeticOperation l op r => do
    let a ← evaluateExpression l
    let b ← evaluateExpression r
    match op with
    | BinOp.add => Except.ok { lower := a.lower + b.lower, upper := a.upper + b.upper }
    | BinOp.sub =>
      Except.ok { lower := a.lower + b.negate.lower, upper := a.upper + b.negate.upper }
    | BinOp.mult => Except.error PyErr.valueError
  | Expression.variableIdentifier _ => Except.error PyErr.valueError
  | Expression.unsupported => Except.error PyErr.valueError

/-- State of a `SingleVarLinearForm` under construction: `var_sign`
(default `PLUS`), the write-once `var` and the write-once `interval`. -/
structure LinearForm where
  var_sign : Sign
  var : Option VariableIdentifier
  interval : Option IntervalLattice
deriving DecidableEq, Repr

/-- Translation of the `var` property setter: assigning when `self._var`
is already (truthily) set raises `ValueError("var set twice")`. -/
def LinearForm.setVar (f : LinearForm) (v : VariableIdentifier) :
    Except PyErr LinearForm :=
  if f.var.isSome then Except.error PyErr.valueError
  else Except.ok { f with var := some v }

/-- Translation of the `interval` property setter: assigning when
`self._interval` is already (truthily) set raises
`ValueError("interval set twice")`. -/
def LinearForm.setInterval (f : LinearForm) (i : IntervalLattice) :
    Except PyErr LinearForm :=
  if f.interval.isSome then Except.error PyErr.valueError
  else Except.ok { f with interval := some i }

/-- Translation of the local `binary_to_unary_operator`: `Add` and `Sub`
map to the corresponding sign, anything else raises `ValueError`. -/
def binaryToUnary : BinOp → Except PyErr Sign
  | BinOp.add => Except.ok PLUS
  | BinOp.sub => Except.ok MINUS
  | BinOp.mult => Except.error PyErr.valueError

/-- Translation of the second half of `visit_BinaryArithmeticOperation`:
the `try` block evaluates the right operand to an interval, stores it, and
negates it if the operator maps to `MINUS`; on `ValueError` the handler
accepts a bare or unary-negated variable on the right (combining signs),
and re-raises otherwise.  The Python `try` leaves partial mutations in
place: if the interval store succeeded and only the operator conversion
failed, the handler runs on the updated state. -/
def svlfVisitBinRight (f1 : LinearForm) (op : BinOp) (r : Expression) :
    Except PyErr LinearForm :=
  let handler : LinearForm → Except PyErr LinearForm := fun fh =>
    match r with
    | Expression.variableIdentifier v => do
      let fA ← fh.setVar v
      let u ← binaryToUnary op
      Except.ok { fA with var_sign := u }
    | Expression.unaryArithmeticOperation s (Expression.variableIdentifier v) => do
      let fA ← fh.setVar v
      let u ← binaryToUnary op
      Except.ok { fA with var_sign := signMul u s }
    | _ => Except.error PyErr.valueError
  match evaluateExpression r with
  | Except.error _ => handler f1
  | Except.ok i =>
    match f1.setInterval i with
    | Except.error _ => handler f1
    | Except.ok f2 =>
      match binaryToUnary op with
      | Except.error _ => handler f2
      | Except.ok u =>
        if u = MINUS then
          Except.ok { f2 with interval := (f2.interval).map IntervalLattice.negate }
        else Except.ok f2

/-- Translation of the `SingleVarLinearForm` visitor body (its `visit_*`
methods never call each other; constant evaluation goes through the
interval domain).  `visit_Literal` stores the evaluated interval,
`visit_VariableIdentifier` stores the variable, `visit_Input` stores the
maximal interval, `visit_UnaryArithmeticOperation` first tries constant
evaluation of the whole expression and otherwise accepts a negated
variable, `visit_BinaryArithmeticOperation` handles the left operand
(constant, variable, or signed variable) and then the right operand, and
`generic_visit` raises `ValueError`. -/
def svlfVisit (f : LinearForm) : Expression → Except PyErr LinearForm
  | Expression.literal l u => f.setInterval { lower := qfin l, upper := qfin u }
  | Expression.variableIdentifier v => f.setVar v
  | Expression.input => f.setInterval IntervalLattice.topI
  | Expression.unaryArithmeticOperation s e =>
    match evaluateExpression (Expression.unaryArithmeticOperation s e) with
    | Except.ok i => f.setInterval i
    | Except.error _ =>
      match e with
      | Expression.variableIdentifier v => do
        let f' ← f.setVar v
        Except.ok { f' with var_sign := s }
      | _ => Except.error PyErr.valueError
  | Expression.binaryArithmeticOperation l op r => do
    let f1 ←
      match evaluateExpression l with
      | Except.ok i => f.setInterval i
      | Except.error _ =>
        match l with
        | Expression.variableIdentifier v => f.setVar v
        | Expression.unaryArithmeticOperation s (Expression.variableIdentifier v) => do
          let f' ← f.setVar v
          Except.ok { f' with var_sign := s }
        | _ => Except.error PyErr.valueError
    svlfVisitBinRight f1 op r
  | Expression.unsupported => Except.error PyErr.valueError

/-- Translation of `SingleVarLinearForm.__init__`: visit the expression
starting from the default state (`var_sign = PLUS`, no variable, no
interval); a failure propagates as the constructor's `ValueError`. -/
def singleVarLinearForm (e : Expression) : Except PyErr LinearForm :=
  svlfVisit { var_sign := PLUS, var := none, interval := none } e

namespace OctagonLattice

/-- Translation of `set_interval(var, interval)`.  Both branches call the
bound setters with the `var` argument missing (`self.set_lb(interval.
lower)` where `set_lb(self, var, constant)` expects two arguments), which
raises `TypeError` at the call before any write occurs. -/
def set_interval (o : OctagonLattice) (_v : VariableIdentifier)
    (_i : IntervalLattice) : OctagonLattice × Option PyErr :=
  (o, some PyErr.typeError)

/-- Handler translating `except ValueError: ... pass` around the
assignment body: a `ValueError` is swallowed (keeping any in-place
mutation already performed), other exceptions propagate. -/
def catchValueError (p : OctagonLattice × Option PyErr) :
    OctagonLattice × Option PyErr :=
  match p with
  | (s, some PyErr.valueError) => (s, none)
  | other => other

/-- Body of the `try` block of `OctagonDomain._assign_variable`: construct
the linear form of the right-hand side and dispatch on its shape.
`x = [a,b]` forgets the target then constrains it with `set_interval`;
`x = x + [a,b]` (positive sign) constrains the target to its shifted
bounds; a negative sign or a different variable falls through (`pass`),
as does a form with no interval. -/
def assignBody (o : OctagonLattice) (v : VariableIdentifier) (right : Expression) :
    OctagonLattice × Option PyErr :=
  match singleVarLinearForm right with
  | Except.error e => (o, some e)
  | Except.ok form =>
    if form.var.isNone ∧ form.interval.isSome then
      match o.forget v with
      | (o1, some e) => (o1, some e)
      | (o1, none) =>
        match form.interval with
        | some i => o1.set_interval v i
        | none => (o1, none)
    else if form.var.isSome ∧ form.interval.isSome then
      if form.var = some v then
        if form.var_sign = PLUS then
          match o.get_lb v, o.get_ub v with
          | Except.ok lo, Except.ok hi =>
            match form.interval with
            | some i => o.set_interval v { lower := lo + i.lower, upper := hi + i.upper }
            | none => (o, none)
          | Except.error e, _ => (o, some e)
          | _, Except.error e => (o, some e)
        else (o, none)
      else (o, none)
    else (o, none)

/-- Translation of `OctagonDomain._assign_variable(left, right)`: a
non-variable target is ignored, a non-`int` variable target raises
`ValueError` (outside the `try`), and otherwise the body runs under
`except ValueError: pass`. -/
def assign_variable (o : OctagonLattice) (left right : Expression) :
    OctagonLattice × Option PyErr :=
  match left with
  | Expression.variableIdentifier v =>
    if v.typ ≠ PyType.int then (o, some PyErr.valueError)
    else catchValueError (o.assignBody v right)
  | _ => (o, none)

end OctagonLattice

/-- Iteration of the widening transfer on a sequence of octagons: the
analysis state starts at the first element and is widened with each
successive element (`A = A.widening(B_k)`), the loop shape of the external
fixpoint driver (§6). -/
def widenIter (B : ℕ → OctagonLattice) : ℕ → OctagonLattice
  | 0 => B 0
  | k + 1 => (widenIter B k).wideningStep (B (k + 1))

/-- Concrete integer program variable used by the concrete instances. -/
def vx : VariableIdentifier := { name := "x", typ := PyType.int }

/-- Second concrete integer program variable. -/
def vy : VariableIdentifier := { name := "y", typ := PyType.int }

/-- Concrete octagon over the single variable `x`, reset to top. -/
def octX : OctagonLattice := (OctagonLattice.ofVars [vx]).top

/-- Concrete octagon over the variables `x`, `y`. -/
def octXY : OctagonLattice := OctagonLattice.ofVars [vx, vy]

/-- Right-hand side expression `[0, 10]` of the end-to-end scenarios. -/
def rhsInterval : Expression := Expression.literal 0 10

/-- Right-hand side expression `x + [1, 1]` of the additive scenario. -/
def rhsAdditive : Expression :=
  Expression.binaryArithmeticOperation (Expression.variableIdentifier vx) BinOp.add
    (Expression.literal 1 1)

theorem varIndexAux_even : ∀ (l : List VariableIdentifier) (v : VariableIdentifier)
    (k p : Nat), k % 2 = 0 → varIndexAux l v k = some p → p % 2 = 0
  | [], _, _, _, _, h => by simp [varIndexAux] at h
  | x :: xs, v, k, p, hk, h => by
    simp only [varIndexAux] at h
    cases hx : varIndexAux xs v (k + 2) with
    | some r =>
      rw [hx] at h
      have hrp : r = p := Option.some.inj h
      have hr := varIndexAux_even xs v (k + 2) r (by omega) hx
      omega
    | none =>
      rw [hx] at h
      by_cases hxv : x = v
      · rw [if_pos hxv] at h
        have hkp : k = p := Option.some.inj h
        omega
      · rw [if_neg hxv] at h
        exact absurd h (by simp)

theorem widenFun_ge (a b : EInt) : b ≤ OctagonLattice.widenFun a b := by
  unfold OctagonLattice.widenFun
  split
  · assumption
  · exact le_top

theorem widenIter_entry_ge (B : ℕ → OctagonLattice) (i j : Nat) :
    ∀ k, (B k).dbm.entries i j ≤ (widenIter B k).dbm.entries i j
  | 0 => le_refl _
  | _ + 1 => widenFun_ge _ _

theorem widenIter_entry_stable (B : ℕ → OctagonLattice) (i j : Nat)
    (hb : ∀ k, (B (k + 1)).dbm.entries i j ≤ (B k).dbm.entries i j) (k : ℕ) :
    (widenIter B (k + 1)).dbm.entries i j = (widenIter B k).dbm.entries i j := by
  have h1 : (B (k + 1)).dbm.entries i j ≤ (widenIter B k).dbm.entries i j :=
    le_trans (hb k) (widenIter_entry_ge B i j k)
  show OctagonLattice.widenFun _ _ = _
  unfold OctagonLattice.widenFun
  rw [if_pos h1]

open OctagonLattice

/-- C1: the round trip fails in the code.  `set_lb(x, 5)` raises
`TypeError` — `__setitem__`'s 4-tuple branch calls the two-parameter
module function `_index_shift` with a single argument — before any DBM
write, so the state is unchanged, and `get_lb(x)` raises the same
`TypeError` inside `__getitem__` instead of returning a bound; `set_ub` /
`get_ub` fail identically, so no input can satisfy the round trip. -/
theorem set_lb_get_lb_round_trip_fails :
    (octX.set_lb vx 5).2 = some PyErr.typeError
    ∧ (octX.set_lb vx 5).1 = octX
    ∧ (octX.set_lb vx 5).1.get_lb vx = Except.error PyErr.typeError
    ∧ (octX.set_ub vx 7).2 = some PyErr.typeError
    ∧ (octX.set_ub vx 7).1 = octX
    ∧ (octX.set_ub vx 7).1.get_ub vx = Except.error PyErr.typeError :=
  ⟨rfl, rfl, rfl, rfl, rfl, rfl⟩

/-- C4: `top()` followed by `is_top()` does not return true: `is_top`
subscripts the numeric bound (`b[0] != b[1]`, where the key `k` was
intended) and raises `TypeError` on any octagon with at least one
variable. -/
theorem top_is_top_raises :
    (OctagonLattice.ofVars [vx]).top.is_top = Except.error PyErr.typeError :=
  rfl

/-- C5: `assign(x, [0, 10])` on an octagon domain over `x`, `y` does not
constrain `x`: the interval branch first calls `forget`, whose 2-tuple
`__setitem__` aborts in the dictionary-key computation with a `TypeError`
that the `except ValueError` handler does not catch (and even a completed
`forget` would then hit `set_interval`'s own missing-argument
`TypeError`); `get_lb(x)` itself raises `TypeError`, so `get_lb(x) == 0`
is unattainable. -/
theorem assign_interval_raises :
    (octXY.assign_variable (Expression.variableIdentifier vx) rhsInterval).2
      = some PyErr.typeError
    ∧ (octXY.assign_variable (Expression.variableIdentifier vx) rhsInterval).1.get_lb vx
      = Except.error PyErr.typeError :=
  ⟨rfl, rfl⟩

/-- C6: the additive scenario fails: the first assignment aborts in
`forget` with an uncaught `TypeError`, and the follow-up
`assign(x, x + [1, 1])` aborts evaluating `self.get_lb(left)` — the
additive update's first read — whose 4-tuple `__getitem__` raises
`TypeError`; `get_lb(x)` raises rather than returning `1`. -/
theorem assign_additive_raises :
    ((OctagonLattice.ofVars [vx]).assign_variable (Expression.variableIdentifier vx)
        rhsInterval).2 = some PyErr.typeError
    ∧ (((OctagonLattice.ofVars [vx]).assign_variable (Expression.variableIdentifier vx)
        rhsInterval).1.assign_variable (Expression.variableIdentifier vx) rhsAdditive).2
      = some PyErr.typeError
    ∧ (((OctagonLattice.ofVars [vx]).assign_variable (Expression.variableIdentifier vx)
        rhsInterval).1.assign_variable (Expression.variableIdentifier vx) rhsAdditive).1.get_lb
        vx = Except.error PyErr.typeError :=
  ⟨rfl, rfl, rfl⟩

/-- C3 counterexample: `widening` invoked on operands of different DBM
sizes returns normally instead of failing — the source performs no
dimension check in `_widening`. -/
theorem widening_no_dimension_check :
    ((OctagonLattice.ofVars [vx]).widening octXY).isOk = true
    ∧ (OctagonLattice.ofVars [vx]).dbm.size ≠ octXY.dbm.size :=
  ⟨rfl, by decide⟩

/-- C3 (amended): on operands of different DBM sizes, `less_equal`, `meet`
and `join` raise `ValueError`, while `widening` performs no dimension
check and silently applies the entrywise rule. -/
theorem dimension_mismatch_ops (a b : OctagonLattice) (h : a.dbm.size ≠ b.dbm.size) :
    a.less_equal b = Except.error PyErr.valueError
    ∧ a.meet b = Except.error PyErr.valueError
    ∧ a.join b = Except.error PyErr.valueError
    ∧ a.widening b = Except.ok (a.wideningStep b) := by
  refine ⟨?_, ?_, ?_, rfl⟩
  · unfold OctagonLattice.less_equal; rw [if_pos h]
  · unfold OctagonLattice.meet; rw [if_pos h]
  · unfold OctagonLattice.join; rw [if_pos h]

/-- Witness for the amended C3 at octagons of sizes 2 and 4. -/
theorem dimension_mismatch_ops_witness :
    (OctagonLattice.ofVars [vx]).dbm.size ≠ octXY.dbm.size
    ∧ ((OctagonLattice.ofVars [vx]).less_equal octXY = Except.error PyErr.valueError
      ∧ (OctagonLattice.ofVars [vx]).meet octXY = Except.error PyErr.valueError
      ∧ (OctagonLattice.ofVars [vx]).join octXY = Except.error PyErr.valueError
      ∧ (OctagonLattice.ofVars [vx]).widening octXY
        = Except.ok ((OctagonLattice.ofVars [vx]).wideningStep octXY)) :=
  ⟨by decide, dimension_mismatch_ops (OctagonLattice.ofVars [vx]) octXY (by decide)⟩

/-- C10: when the target is an integer variable and extraction of the
right-hand side fails with a `ValueError`, `_assign_variable` catches it
and returns the state unchanged with no exception. -/
theorem assign_extraction_failure_unchanged (o : OctagonLattice)
    (v : VariableIdentifier) (right : Expression) (hv : v.typ = PyType.int)
    (hf : singleVarLinearForm right = Except.error PyErr.valueError) :
    o.assign_variable (Expression.variableIdentifier v) right = (o, none) := by
  simp only [OctagonLattice.assign_variable]
  rw [if_neg (by simp [hv])]
  unfold OctagonLattice.assignBody
  rw [hf]
  rfl

/-- Witness for C10 at an unsupported right-hand side expression. -/
theorem assign_extraction_failure_unchanged_witness :
    vx.typ = PyType.int
    ∧ singleVarLinearForm Expression.unsupported = Except.error PyErr.valueError
    ∧ octXY.assign_variable (Expression.variableIdentifier vx) Expression.unsupported
      = (octXY, none) :=
  ⟨rfl, rfl, assign_extraction_failure_unchanged octXY vx Expression.unsupported rfl rfl⟩

/-- C8: iterating `widening` along a monotonically tightening sequence of
octagons of DBM size `n` (so `n = 2N`) stabilizes within `n ^ 2`
iterations: every in-range entry of the iterate at index `n ^ 2` is
already fixed.  Each step of the iteration is exactly the program's
`widening`.  The bound is far from tight: a tightening sequence never
destabilizes a kept bound, so the iterate is constant from the first
step on. -/
theorem widening_terminates (B : ℕ → OctagonLattice) (n : ℕ)
    (_hsz : ∀ k, (B k).dbm.size = n)
    (hmono : ∀ k i j, i < n → j < n →
      (B (k + 1)).dbm.entries i j ≤ (B k).dbm.entries i j) :
    (∀ k, (widenIter B k).widening (B (k + 1)) = Except.ok (widenIter B (k + 1)))
    ∧ ∀ m i j, i < n → j < n →
      (widenIter B (n ^ 2 + m)).dbm.entries i j = (widenIter B (n ^ 2)).dbm.entries i j := by
  refine ⟨fun _ => rfl, ?_⟩
  intro m i j hi hj
  induction m with
  | zero => rfl
  | succ m ih =>
    exact (widenIter_entry_stable B i j (fun k => hmono k i j hi hj) (n ^ 2 + m)).trans ih

/-- Witness for C8 on the constant (hence tightening) sequence at the
top octagon over one variable. -/
theorem widening_terminates_witness :
    (∀ k, ((fun _ : ℕ => octX) k).dbm.size = 2)
    ∧ (∀ k i j, i < 2 → j < 2 →
        ((fun _ : ℕ => octX) (k + 1)).dbm.entries i j
          ≤ ((fun _ : ℕ => octX) k).dbm.entries i j)
    ∧ ((∀ k, (widenIter (fun _ : ℕ => octX) k).widening ((fun _ : ℕ => octX) (k + 1))
          = Except.ok (widenIter (fun _ : ℕ => octX) (k + 1)))
      ∧ ∀ m i j, i < 2 → j < 2 →
        (widenIter (fun _ : ℕ => octX) (2 ^ 2 + m)).dbm.entries i j
          = (widenIter (fun _ : ℕ => octX) (2 ^ 2)).dbm.entries i j) :=
  ⟨fun _ => rfl, fun _ _ _ _ _ => le_refl _,
    widening_terminates (fun _ : ℕ => octX) 2 (fun _ => rfl) (fun _ _ _ _ _ => le_refl _)⟩

/-- C7: antisymmetry of the lattice order — if `less_equal` holds in both
directions (in particular both calls return rather than raising, so the
dimensions agree), the two octagons have identical DBM bounds at every
in-range position. -/
theorem less_equal_antisymm (a b : OctagonLattice)
    (hab : a.less_equal b = Except.ok true) (hba : b.less_equal a = Except.ok true) :
    ∀ i j, i < a.dbm.size → j < a.dbm.size → a.dbm.entries i j = b.dbm.entries i j := by
  by_cases hsz : a.dbm.size = b.dbm.size
  · unfold OctagonLattice.less_equal at hab hba
    rw [if_neg (by omega)] at hab
    rw [if_neg (by omega)] at hba
    have pab := of_decide_eq_true (Except.ok.inj hab)
    have pba := of_decide_eq_true (Except.ok.inj hba)
    intro i j hi hj
    refine le_antisymm (pab i (List.mem_range.mpr hi) j (List.mem_range.mpr hj)) ?_
    exact pba i (List.mem_range.mpr (by omega)) j (List.mem_range.mpr (by omega))
  · unfold OctagonLattice.less_equal at hab
    rw [if_pos hsz] at hab
    exact absurd hab (by simp)

/-- Witness for C7 at a pair of equal octagons over one variable. -/
theorem less_equal_antisymm_witness :
    octX.less_equal octX = Except.ok true
    ∧ ∀ i j, i < octX.dbm.size → j < octX.dbm.size →
        octX.dbm.entries i j = octX.dbm.entries i j :=
  ⟨rfl, less_equal_antisymm octX octX rfl rfl⟩

/-- C2 counterexample: at a concrete 4-tuple index over tracked variables
the raised exception is `TypeError`, not `ValueError`, and the state is
unchanged — no off-diagonal write is performed — refuting the claim as
stated. -/
theorem setitem_quad_not_valueerror :
    (octXY.setItem (OctIndex.quad vx PLUS vy MINUS) (qfin 3)).2 ≠ some PyErr.valueError
    ∧ (octXY.setItem (OctIndex.quad vx PLUS vy MINUS) (qfin 3)).1 = octXY :=
  ⟨by decide, rfl⟩

/-- C2 (amended): `__setitem__` on a 4-tuple never returns normally, but
the exception is the `TypeError` of the one-argument `_index_shift(sign1)`
call, raised before any write (the `len(index) == 2` else-clause
`ValueError` is unreachable on 4-tuples); consequently `set_lb`, `set_ub`
and `set_octagonal_constraint` all raise `TypeError` and leave the state
unmutated. -/
theorem setitem_quad_raises_typeerror (o : OctagonLattice)
    (v1 v2 : VariableIdentifier) (s1 s2 : Sign) (val : EInt) (c : ℚ) :
    (o.setItem (OctIndex.quad v1 s1 v2 s2) val).2 = some PyErr.typeError
    ∧ (o.setItem (OctIndex.quad v1 s1 v2 s2) val).1 = o
    ∧ (o.set_lb v1 c).2 = some PyErr.typeError
    ∧ (o.set_lb v1 c).1 = o
    ∧ (o.set_ub v1 c).2 = some PyErr.typeError
    ∧ (o.set_ub v1 c).1 = o
    ∧ (o.set_octagonal_constraint s1 v1 s2 v2 c).2 = some PyErr.typeError
    ∧ (o.set_octagonal_constraint s1 v1 s2 v2 c).1 = o :=
  ⟨rfl, rfl, rfl, rfl, rfl, rfl, rfl, rfl⟩

/-- C9: `forget(v)` does not unbound `v`.  The 2-tuple `__setitem__`
assignments abort in the dictionary-key computation, so only the closure
performed before them survives and no constraint on `v` is cleared — in
particular the even-valued `_var_to_index` (see `varIndexAux_even`) could
never reach the odd negative index `2k + 1` under any semantics of the
absent addition — and `get_lb(v)` / `get_ub(v)` raise `TypeError` inside
`__getitem__` instead of yielding unbounded results. -/
theorem forget_aborts_and_getters_raise :
    (octXY.forget vx).2 = some PyErr.typeError
    ∧ (octXY.forget vx).1 = { octXY with dbm := octXY.dbm.close }
    ∧ (octXY.forget vx).1.get_lb vx = Except.error PyErr.typeError
    ∧ (octXY.forget vx).1.get_ub vx = Except.error PyErr.typeError :=
  ⟨rfl, rfl, rfl, rfl⟩
